import Mathlib

/-!
Verification of the Electrum `Interface` session core (`lib/interface.py`)
against its natural-language specification.

The Python class `Interface` manages one connection to a remote server:
it queues outgoing requests (`queue_request`), sends them and records them
as unanswered (`send_request`), demultiplexes incoming messages
(`get_responses`), and monitors liveness (`ping_required`,
`has_timed_out`).  We shallow-embed the state and these operations below.
Wall-clock times are modelled as integers (`Int`), message payloads are
abstracted to a `Nat`, and the Python dict `unanswered_requests` is an
association list with pairwise-distinct keys (the dict invariant).
-/

namespace Electrum

/-- A request, the `(method, params, id)` args tuple queued by
`queue_request` and stored in `unanswered_requests` by `send_request`.
Being a non-empty tuple in Python, a stored request is always truthy,
so the guard `if request:` in `get_responses` coincides with an
`Option` pattern match in the embedding. -/
structure Request where
  method : String
  params : List Nat
  id : Nat
deriving DecidableEq, Repr

/-- A decoded wire message (a Python dict): `wireId` is `response.get('id',
None)`; the rest of the dict is abstracted as a payload. -/
structure WireMessage where
  wireId : Option Nat
  payload : Nat
deriving DecidableEq, Repr

/-- One value returned by `pipe.get()`: either the decoded dict, the
closed-connection sentinel `None`, or any other non-dict value. -/
inductive PipeItem where
  | msg (m : WireMessage)
  | closed
  | malformed
deriving DecidableEq, Repr

/-- `d.get(i, None)` on the dict `unanswered_requests`. -/
def lookupPending : List (Nat × Request) → Nat → Option Request
  | [], _ => none
  | (k, v) :: rest, i => if k = i then some v else lookupPending rest i

/-- `d.pop(i, None)`: returns the removed value (or `none`) together with
the remaining table. -/
def popPending : List (Nat × Request) → Nat → Option Request × List (Nat × Request)
  | [], _ => (none, [])
  | (k, v) :: rest, i =>
    if k = i then (some v, rest)
    else
      let r := popPending rest i
      (r.1, (k, v) :: r.2)

/-- `d[i] = r`: Python dict assignment — replaces the value if the key is
present, otherwise appends a new entry. -/
def dictInsert : List (Nat × Request) → Nat → Request → List (Nat × Request)
  | [], i, r => [(i, r)]
  | (k, v) :: rest, i, r =>
    if k = i then (i, r) :: rest else (k, v) :: dictInsert rest i r

/-- The mutable state of one `Interface` session.  `request_time` is
`none` until the first `queue_request` (the Python attribute does not
exist before then).  The `debug` flag and the `pipe`/`server` handles
only affect I/O and are not part of the state the claims mention. -/
structure SessionState where
  unsent_requests : List (Int × Request)
  unanswered_requests : List (Nat × Request)
  request_time : Option Int
  last_request : Int
  last_ping : Int
  closed_remotely : Bool
deriving DecidableEq, Repr

/-- `Interface.__init__` at wall-clock time `now`: empty queue and table,
`last_request = time.time()`, `last_ping = 0` (comment in the source:
"Set last ping to zero to ensure immediate ping"). -/
def initState (now : Int) : SessionState :=
  { unsent_requests := []
    unanswered_requests := []
    request_time := none
    last_request := now
    last_ping := 0
    closed_remotely := false }

/-- `Interface.queue_request` at time `now`: sets `request_time` and puts
`(request_time, args)` on the priority queue (times are non-decreasing
under the single producer, so appending preserves queue order). -/
def queueRequest (st : SessionState) (now : Int) (args : Request) : SessionState :=
  { st with
      request_time := some now
      unsent_requests := st.unsent_requests ++ [(now, args)] }

/-- `Interface.num_requests`: `min(100 - len(unanswered_requests),
unsent_requests.qsize())`, over Python (unbounded) integers. -/
def numRequests (st : SessionState) : Int :=
  min (100 - (st.unanswered_requests.length : Int))
    ((st.unsent_requests.length : Int))

/-- The successful-send tail of `Interface.send_request`: the dequeued
request is recorded in `unanswered_requests` under its wire id
(`self.unanswered_requests[request[2]] = request`, a plain dict
assignment). -/
def recordRequest (st : SessionState) (request : Request) : SessionState :=
  { st with
      unanswered_requests := dictInsert st.unanswered_requests request.id request }

/-- `Interface.ping_required` at time `now`: returns the boolean together
with the state after the side effect on `last_ping`. -/
def pingRequired (st : SessionState) (now : Int) : Bool × SessionState :=
  if now - st.last_ping > 60 then (true, { st with last_ping := now })
  else (false, st)

/-- `Interface.has_timed_out` at time `now` with transport idle time
`idle`.  The conjunction short-circuits exactly as in Python: an empty
table yields `False` before `request_time` is read; reading an unset
`request_time` would raise `AttributeError`, modelled as `none`. -/
def hasTimedOut (st : SessionState) (now idle : Int) : Option Bool :=
  if st.unanswered_requests.isEmpty then some false
  else
    match st.request_time with
    | none => none
    | some t => some (decide (now - t > 10) && decide (idle > 10))

/-- `Interface.get_responses`, run against the list of values the pipe
will yield.  An exhausted list models the point where `pipe.get()` would
suspend awaiting more data.  Returns the accumulated
`(request, response)` pairs and the final state. -/
def getResponses (st : SessionState) : List PipeItem → List (Option Request × Option WireMessage) × SessionState
  | [] => ([], st)
  | item :: rest =>
    match item with
    | .closed => ([(none, none)], { st with closed_remotely := true })
    | .malformed => ([(none, none)], st)
    | .msg m =>
      match m.wireId with
      | none =>
        let r := getResponses st rest
        ((none, some m) :: r.1, r.2)
      | some i =>
        let p := popPending st.unanswered_requests i
        match p.1 with
        | some request =>
          let r := getResponses { st with unanswered_requests := p.2 } rest
          ((some request, some m) :: r.1, r.2)
        | none => ([(none, none)], st)

/-- The result of `check_cert(host, cert)`: either the parse failed and a
traceback is printed (the function returns early), or a diagnostic
`{host, expired}` is printed. -/
inductive CertReport where
  | parseFailure
  | info (host : String) (expired : Bool)
deriving DecidableEq, Repr

/-- `check_cert(host, cert)`.  The PEM decoding and X509 construction
(`pem.dePem`, `x509.X509`, modules outside this excerpt) are abstracted
as the `parse` outcome for the given blob, and `x.check_date()` as the
`checkDate` outcome; `Except.error` models a raised exception.  Both
`try/except` blocks catch every exception, so the function itself is
total: it returns a report for every input. -/
def check_cert (host : String) (parse : Except String Nat)
    (checkDate : Nat → Except String Unit) : CertReport :=
  match parse with
  | .error _ => .parseFailure
  | .ok x =>
    match checkDate x with
    | .error _ => .info host true
    | .ok _ => .info host false

/-- Concrete requests used by the closed witness/counterexample states. -/
def reqA : Request := ⟨"server.version", [1], 7⟩

/-- A second concrete request carrying the same wire id as `reqA`. -/
def reqB : Request := ⟨"server.banner", [], 7⟩

/-- A session state holding 101 pending (unanswered) requests and an empty
send queue. -/
def c5State : SessionState :=
  { initState 0 with unanswered_requests := (List.range 101).map (fun n => (n, reqA)) }

/-- A session state whose pending table maps wire id 7 to `reqA`. -/
def c1State : SessionState :=
  { initState 0 with unanswered_requests := [(7, reqA)] }

theorem popPending_fst (l : List (Nat × Request)) (i : Nat) :
    (popPending l i).1 = lookupPending l i := by
  induction l with
  | nil => rfl
  | cons kv rest ih =>
    obtain ⟨k, v⟩ := kv
    by_cases hk : k = i
    · simp [popPending, lookupPending, hk]
    · simp [popPending, lookupPending, hk, ih]

theorem lookupPending_eq_none_of_not_mem (l : List (Nat × Request)) (i : Nat)
    (h : i ∉ l.map Prod.fst) : lookupPending l i = none := by
  induction l with
  | nil => rfl
  | cons kv rest ih =>
    obtain ⟨k, v⟩ := kv
    simp only [List.map_cons, List.mem_cons] at h
    push_neg at h
    have hki : ¬ k = i := fun he => h.1 he.symm
    simp [lookupPending, hki, ih h.2]

theorem lookup_popPending_snd (l : List (Nat × Request)) (i : Nat)
    (h : (l.map Prod.fst).Nodup) : lookupPending (popPending l i).2 i = none := by
  induction l with
  | nil => rfl
  | cons kv rest ih =>
    obtain ⟨k, v⟩ := kv
    simp only [List.map_cons, List.nodup_cons] at h
    by_cases hk : k = i
    · simp only [popPending, if_pos hk]
      exact lookupPending_eq_none_of_not_mem rest i (hk ▸ h.1)
    · simp [popPending, lookupPending, hk, ih h.2]

theorem mem_keys_dictInsert (l : List (Nat × Request)) (i j : Nat) (r : Request) :
    j ∈ (dictInsert l i r).map Prod.fst ↔ j = i ∨ j ∈ l.map Prod.fst := by
  induction l with
  | nil => simp [dictInsert]
  | cons kv rest ih =>
    obtain ⟨k, v⟩ := kv
    by_cases hk : k = i
    · subst hk
      simp [dictInsert]
    · simp only [dictInsert, if_neg hk, List.map_cons, List.mem_cons, ih]
      tauto

theorem lookup_dictInsert_self (l : List (Nat × Request)) (i : Nat) (r : Request) :
    lookupPending (dictInsert l i r) i = some r := by
  induction l with
  | nil => simp [dictInsert, lookupPending]
  | cons kv rest ih =>
    obtain ⟨k, v⟩ := kv
    by_cases hk : k = i
    · simp [dictInsert, hk, lookupPending]
    · simp [dictInsert, hk, lookupPending, ih]

theorem nodup_keys_dictInsert (l : List (Nat × Request)) (i : Nat) (r : Request)
    (h : (l.map Prod.fst).Nodup) : ((dictInsert l i r).map Prod.fst).Nodup := by
  induction l with
  | nil => simp [dictInsert]
  | cons kv rest ih =>
    obtain ⟨k, v⟩ := kv
    simp only [List.map_cons, List.nodup_cons] at h
    by_cases hk : k = i
    · subst hk
      simpa [dictInsert] using h
    · simp only [dictInsert, if_neg hk, List.map_cons, List.nodup_cons]
      refine ⟨?_, ih h.2⟩
      rw [mem_keys_dictInsert]
      push_neg
      exact ⟨hk, h.1⟩

theorem length_dictInsert_of_mem (l : List (Nat × Request)) (i : Nat) (r : Request)
    (h : lookupPending l i ≠ none) : (dictInsert l i r).length = l.length := by
  induction l with
  | nil => simp [lookupPending] at h
  | cons kv rest ih =>
    obtain ⟨k, v⟩ := kv
    by_cases hk : k = i
    · simp [dictInsert, hk]
    · simp only [lookupPending, if_neg hk] at h
      simp [dictInsert, hk, ih h]

/-- C1: if the pending table maps wire id 7 to `r7` (with the dict's
distinct-key invariant) and the next message read is a well-formed answer
carrying id 7, then `get_responses` appends exactly the one pair
`(r7, answer)` for that message, removes id 7 from the table, and
continues reading the rest of the stream from the updated state. -/
theorem claim1_matched_answer_appends_pair_and_removes (st : SessionState)
    (r7 : Request) (payload : Nat) (rest : List PipeItem)
    (hnodup : (st.unanswered_requests.map Prod.fst).Nodup)
    (hlook : lookupPending st.unanswered_requests 7 = some r7) :
    getResponses st (.msg ⟨some 7, payload⟩ :: rest)
      = ((some r7, some ⟨some 7, payload⟩)
          :: (getResponses { st with unanswered_requests := (popPending st.unanswered_requests 7).2 } rest).1,
         (getResponses { st with unanswered_requests := (popPending st.unanswered_requests 7).2 } rest).2) ∧
    lookupPending (popPending st.unanswered_requests 7).2 7 = none := by
  have hp : (popPending st.unanswered_requests 7).1 = some r7 := by
    rw [popPending_fst]; exact hlook
  exact ⟨by simp [getResponses, hp], lookup_popPending_snd _ _ hnodup⟩

/-- Closed instance of C1: the table `[(7, reqA)]` against the single
answer `{id: 7}`. -/
theorem claim1_witness :
    (c1State.unanswered_requests.map Prod.fst).Nodup ∧
    lookupPending c1State.unanswered_requests 7 = some reqA ∧
    lookupPending (popPending c1State.unanswered_requests 7).2 7 = none :=
  ⟨by decide, by decide,
    (claim1_matched_answer_appends_pair_and_removes c1State reqA 1 [] (by decide) (by decide)).2⟩

/-- C2: a well-formed message carrying an id absent from the pending
table makes `get_responses` append a trailing `(none, none)` and stop:
the remaining stream is not read and the state — in particular the
pending table — is returned unchanged. -/
theorem claim2_unknown_id_stops (st : SessionState) (i payload : Nat)
    (rest : List PipeItem)
    (h : lookupPending st.unanswered_requests i = none) :
    getResponses st (.msg ⟨some i, payload⟩ :: rest) = ([(none, none)], st) := by
  have hp : (popPending st.unanswered_requests i).1 = none := by
    rw [popPending_fst]; exact h
  simp [getResponses, hp]

/-- Closed instance of C2: a fresh session receiving an answer with
unknown id 5 followed by a further message that is never processed. -/
theorem claim2_witness :
    lookupPending (initState 0).unanswered_requests 5 = none ∧
    getResponses (initState 0) [.msg ⟨some 5, 9⟩, .msg ⟨none, 3⟩]
      = ([(none, none)], initState 0) :=
  ⟨by decide, claim2_unknown_id_stops (initState 0) 5 9 [.msg ⟨none, 3⟩] (by decide)⟩

/-- C3: a non-dict value from the transport makes `get_responses` append
`(none, none)` and stop reading; when that value is the closed-connection
sentinel (`None`), the `closed_remotely` flag is additionally set. -/
theorem claim3_non_message (st : SessionState) (rest : List PipeItem) :
    getResponses st (.malformed :: rest) = ([(none, none)], st) ∧
    getResponses st (.closed :: rest)
      = ([(none, none)], { st with closed_remotely := true }) :=
  ⟨rfl, rfl⟩

/-- C4: a well-formed message with no id is appended as `(none, message)`
and reading continues from the same state, so the pending table is left
unchanged by that message. -/
theorem claim4_no_id_continues (st : SessionState) (payload : Nat)
    (rest : List PipeItem) :
    getResponses st (.msg ⟨none, payload⟩ :: rest)
      = ((none, some ⟨none, payload⟩) :: (getResponses st rest).1,
         (getResponses st rest).2) ∧
    getResponses st [.msg ⟨none, payload⟩] = ([(none, some ⟨none, payload⟩)], st) :=
  ⟨rfl, rfl⟩

/-- C5 counterexample: with 101 pending requests and an empty send queue,
`num_requests()` returns `min(100 - 101, 0) = -1`, a negative value — the
claim that the result is never negative fails at this state. -/
theorem claim5_counterexample : numRequests c5State = -1 ∧ numRequests c5State < 0 := by
  constructor <;> decide

/-- C5 amended: `num_requests()` returns exactly
`min(100 - |PendingTable|, queue.size())`, and this value is nonnegative
whenever the pending table holds at most 100 entries (the advisory bound
the send path is supposed to maintain). -/
theorem claim5_num_requests (st : SessionState)
    (h : st.unanswered_requests.length ≤ 100) :
    numRequests st
      = min (100 - (st.unanswered_requests.length : Int))
          ((st.unsent_requests.length : Int)) ∧
    0 ≤ numRequests st := by
  refine ⟨rfl, ?_⟩
  have h1 : (st.unanswered_requests.length : Int) ≤ 100 := by exact_mod_cast h
  have h2 : (0 : Int) ≤ (st.unsent_requests.length : Int) := Int.ofNat_nonneg _
  exact le_min (by omega) h2

/-- Closed instance of the amended C5 at a fresh session. -/
theorem claim5_witness :
    (initState 0).unanswered_requests.length ≤ 100 ∧ 0 ≤ numRequests (initState 0) :=
  ⟨by decide, (claim5_num_requests (initState 0) (by decide)).2⟩

/-- C6: for any state in which `request_time` is set (it is set by every
`queue_request`, which necessarily precedes any pending request),
`has_timed_out()` returns true iff the pending table is non-empty, more
than 10 seconds elapsed since `request_time`, and the transport idle time
exceeds 10 seconds; it returns false iff one of the three fails. -/
theorem claim6_has_timed_out_iff (st : SessionState) (now idle t : Int)
    (h : st.request_time = some t) :
    (hasTimedOut st now idle = some true ↔
      st.unanswered_requests ≠ [] ∧ now - t > 10 ∧ idle > 10) ∧
    (hasTimedOut st now idle = some false ↔
      ¬(st.unanswered_requests ≠ [] ∧ now - t > 10 ∧ idle > 10)) := by
  cases hl : st.unanswered_requests with
  | nil => simp [hasTimedOut, hl]
  | cons a l =>
    constructor
    · simp [hasTimedOut, hl, h, and_assoc]
    · simp [hasTimedOut, hl, h]

/-- Closed instance of C6: one pending request queued at time 0, polled at
time 20 with 20 seconds of transport idle time. -/
theorem claim6_witness :
    ({ c1State with request_time := some 0 } : SessionState).request_time = some 0 ∧
    hasTimedOut { c1State with request_time := some 0 } 20 20 = some true :=
  ⟨rfl,
    (claim6_has_timed_out_iff { c1State with request_time := some 0 } 20 20 0 rfl).1.mpr
      (by constructor
          · decide
          · constructor <;> decide)⟩

/-- C7: when `ping_required()` returns true at time `now` it resets
`last_ping` to `now`; a further call at most 60 seconds after that true
result returns false, and a further call more than 60 seconds after it
returns true again. -/
theorem claim7_ping_window (st : SessionState) (now now1 now2 : Int)
    (h : (pingRequired st now).1 = true) :
    (pingRequired st now).2.last_ping = now ∧
    (now1 - now ≤ 60 → (pingRequired (pingRequired st now).2 now1).1 = false) ∧
    (now2 - now > 60 → (pingRequired (pingRequired st now).2 now2).1 = true) := by
  have hgt : now - st.last_ping > 60 := by
    by_contra hc
    simp [pingRequired, hc] at h
  have h2 : (pingRequired st now).2 = { st with last_ping := now } := by
    simp [pingRequired, hgt]
  refine ⟨by rw [h2], ?_, ?_⟩
  · intro hle
    rw [h2]
    simp only [pingRequired]
    rw [if_neg (by simpa using by omega : ¬ now1 - ({ st with last_ping := now } : SessionState).last_ping > 60)]
  · intro hgt2
    rw [h2]
    simp only [pingRequired]
    rw [if_pos (by simpa using hgt2)]

/-- Closed instance of C7: `last_ping = 0`, a true result at time 100,
then a call at 130 (false) and a call at 200 (true). -/
theorem claim7_witness :
    (pingRequired (initState 70) 100).1 = true ∧
    (pingRequired (pingRequired (initState 70) 100).2 130).1 = false ∧
    (pingRequired (pingRequired (initState 70) 100).2 200).1 = true :=
  ⟨by decide,
    (claim7_ping_window (initState 70) 100 130 200 (by decide)).2.1 (by decide),
    (claim7_ping_window (initState 70) 100 130 200 (by decide)).2.2 (by decide)⟩

/-- C8 counterexample: recording `reqB` while id 7 already maps to `reqA`
does not fail — the dict assignment silently replaces the entry, leaving
the table mapping 7 to `reqB` with `reqA` gone. -/
theorem claim8_counterexample :
    recordRequest c1State reqB = { c1State with unanswered_requests := [(7, reqB)] } ∧
    reqA ≠ reqB := by
  constructor <;> decide

/-- C8 amended: recording a request under an id already present silently
replaces the existing entry (a Python dict assignment, no duplicate-id
failure); at most one entry per id still holds, since distinct keys are
preserved, the new request is the one found under the id afterwards, and
a replacement does not grow the table. -/
theorem claim8_record_replaces (t : List (Nat × Request)) (i : Nat) (r : Request)
    (h : (t.map Prod.fst).Nodup) :
    lookupPending (dictInsert t i r) i = some r ∧
    ((dictInsert t i r).map Prod.fst).Nodup ∧
    (lookupPending t i ≠ none → (dictInsert t i r).length = t.length) :=
  ⟨lookup_dictInsert_self t i r, nodup_keys_dictInsert t i r h,
    length_dictInsert_of_mem t i r⟩

/-- Closed instance of the amended C8: replacing under id 7 in the
one-entry table keeps the table at one entry. -/
theorem claim8_witness :
    ([((7 : Nat), reqA)].map Prod.fst).Nodup ∧
    (dictInsert [(7, reqA)] 7 reqB).length = [((7 : Nat), reqA)].length :=
  ⟨by decide, (claim8_record_replaces [(7, reqA)] 7 reqB (by decide)).2.2 (by decide)⟩

/-- C9: `check_cert` is total — for every hostname and every parse/date
outcome (both `try` blocks catch every exception) it returns a report
rather than propagating a failure: a parse failure degrades to the
traceback diagnostic, and a successfully parsed certificate is reported
as `{host, expired}` where `expired` records whether the date check
raised. -/
theorem claim9_check_cert_never_raises (host : String) (parse : Except String Nat)
    (checkDate : Nat → Except String Unit) :
    (check_cert host parse checkDate = .parseFailure ∨
      ∃ expired, check_cert host parse checkDate = .info host expired) ∧
    (∀ e, parse = .error e → check_cert host parse checkDate = .parseFailure) ∧
    (∀ x, parse = .ok x →
      check_cert host parse checkDate
        = .info host (match checkDate x with | .error _ => true | .ok _ => false)) := by
  cases parse with
  | error e => simp [check_cert]
  | ok x =>
    cases hcd : checkDate x with
    | error e => simp [check_cert, hcd]
    | ok u => simp [check_cert, hcd]

/-- Closed instance of C9: a certificate that parses but whose date check
raises is reported as expired. -/
theorem claim9_witness :
    check_cert "ecdsa.net" (.ok 0) (fun _ => .error "expired")
      = .info "ecdsa.net" true :=
  (claim9_check_cert_never_raises "ecdsa.net" (.ok 0)
    (fun _ => .error "expired")).2.2 0 rfl

/-- C10: on a freshly constructed session, `last_ping` is 0, so the first
`ping_required()` call returns true after any delay `d ≥ 0`, however
small, provided only that the construction-time wall clock exceeds 60
(any realistic epoch time). -/
theorem claim10_first_ping_immediate (t0 d : Int) (h1 : 60 < t0) (h2 : 0 ≤ d) :
    (pingRequired (initState t0) (t0 + d)).1 = true := by
  simp only [pingRequired, initState]
  rw [if_pos (by omega)]

/-- Closed instance of C10: construction at epoch time 1000, first call
with zero elapsed time. -/
theorem claim10_witness :
    (60 : Int) < 1000 ∧ (0 : Int) ≤ 0 ∧
    (pingRequired (initState 1000) (1000 + 0)).1 = true :=
  ⟨by decide, by decide, claim10_first_ping_immediate 1000 0 (by decide) (by decide)⟩

end Electrum
